import Mathlib

/-!
Verification of the SmartSecure IoT Hub dashboard (src/iot_hub.py).

The file embeds, as Lean definitions, the pieces of the program the
specification talks about:

* `SensorReading` — the fixed-keys record produced by `generate_sensor_data`
  (five numeric values, one per key of the Python dict);
* `alerts` — the threshold/alert chain of `sensor_dashboard`
  (src/iot_hub.py lines 146–154);
* `generate_sensor_data` — the reading generator (lines 116–123), as a
  function of the raw uniform samples, with Python `round(·, 2)` embedded as
  round-half-to-even at two decimal places;
* `alertsDict` — the same alert chain over an untyped key/value list, with
  each dictionary access made explicit (to reason about totality);
* `draw_fake_ai_detection` — the constant fake-detection image (lines 162–168);
* `detectionOverlay` — modelled from the spec (the §4.3 Detection Overlay is
  not part of this source file).

Numeric values are rationals; all definitions are executable.
-/

namespace IotHub

/-- One simulated snapshot of the five environmental metrics.  The Python
dict returned by `generate_sensor_data` has exactly these five fixed keys;
here each key is a field. -/
structure SensorReading where
  temperature : ℚ
  humidity : ℚ
  gasLevel : ℚ
  vibration : ℚ
  smokeLevel : ℚ
deriving DecidableEq, Repr

/-- The alert string appended when the temperature check fires. -/
def highTempAlert : String := "🔥 High Temperature"

/-- The alert string appended when the gas-level check fires. -/
def gasLeakAlert : String := "🧪 Gas Leak Detected"

/-- The alert string appended when the smoke-level check fires. -/
def smokeAlert : String := "🚨 Smoke Alert"

/-- The alert string appended when the vibration check fires. -/
def vibrationAlert : String := "⚠️ Vibration Alert"

/-- The alert chain of `sensor_dashboard` (src/iot_hub.py lines 146–154):
start from the empty list and run the four independent threshold checks in
the order they appear in the source — temperature, gas, smoke, vibration —
each appending its alert string when its own reading exceeds its
threshold. -/
def alerts (data : SensorReading) : List String :=
  let a0 : List String := []
  let a1 := if data.temperature > 50 then a0 ++ [highTempAlert] else a0
  let a2 := if data.gasLevel > 600 then a1 ++ [gasLeakAlert] else a1
  let a3 := if data.smokeLevel > 60 then a2 ++ [smokeAlert] else a2
  let a4 := if data.vibration > 3 then a3 ++ [vibrationAlert] else a3
  a4

/-- `alerts` written as a concatenation of four independent segments. -/
theorem alerts_eq (d : SensorReading) :
    alerts d =
      (if d.temperature > 50 then [highTempAlert] else []) ++
      (if d.gasLevel > 600 then [gasLeakAlert] else []) ++
      (if d.smokeLevel > 60 then [smokeAlert] else []) ++
      (if d.vibration > 3 then [vibrationAlert] else []) := by
  unfold alerts
  split_ifs <;> simp

theorem highTempAlert_mem_iff (d : SensorReading) :
    highTempAlert ∈ alerts d ↔ d.temperature > 50 := by
  rw [alerts_eq]
  split_ifs <;>
    simp_all [highTempAlert, gasLeakAlert, smokeAlert, vibrationAlert]

theorem gasLeakAlert_mem_iff (d : SensorReading) :
    gasLeakAlert ∈ alerts d ↔ d.gasLevel > 600 := by
  rw [alerts_eq]
  split_ifs <;>
    simp_all [highTempAlert, gasLeakAlert, smokeAlert, vibrationAlert]

theorem smokeAlert_mem_iff (d : SensorReading) :
    smokeAlert ∈ alerts d ↔ d.smokeLevel > 60 := by
  rw [alerts_eq]
  split_ifs <;>
    simp_all [highTempAlert, gasLeakAlert, smokeAlert, vibrationAlert]

theorem vibrationAlert_mem_iff (d : SensorReading) :
    vibrationAlert ∈ alerts d ↔ d.vibration > 3 := by
  rw [alerts_eq]
  split_ifs <;>
    simp_all [highTempAlert, gasLeakAlert, smokeAlert, vibrationAlert]

/-- C1: for every SensorReading the alert list contains the high-temperature
alert iff the temperature exceeds 50, the gas-leak alert iff the gas level
exceeds 600, and the vibration alert iff the vibration exceeds 3; and each of
these three memberships depends only on its own key's value. -/
theorem C1_alert_membership (d : SensorReading) :
    (highTempAlert ∈ alerts d ↔ d.temperature > 50) ∧
    (gasLeakAlert ∈ alerts d ↔ d.gasLevel > 600) ∧
    (vibrationAlert ∈ alerts d ↔ d.vibration > 3) ∧
    (∀ d2 : SensorReading, d.temperature = d2.temperature →
      (highTempAlert ∈ alerts d ↔ highTempAlert ∈ alerts d2)) ∧
    (∀ d2 : SensorReading, d.gasLevel = d2.gasLevel →
      (gasLeakAlert ∈ alerts d ↔ gasLeakAlert ∈ alerts d2)) ∧
    (∀ d2 : SensorReading, d.vibration = d2.vibration →
      (vibrationAlert ∈ alerts d ↔ vibrationAlert ∈ alerts d2)) := by
  refine ⟨highTempAlert_mem_iff d, gasLeakAlert_mem_iff d,
    vibrationAlert_mem_iff d, ?_, ?_, ?_⟩ <;> intro d2 h
  · rw [highTempAlert_mem_iff, highTempAlert_mem_iff, h]
  · rw [gasLeakAlert_mem_iff, gasLeakAlert_mem_iff, h]
  · rw [vibrationAlert_mem_iff, vibrationAlert_mem_iff, h]

/-- Witness for C1 at concrete readings: temperature 55 puts the
high-temperature alert in the list, and a second reading sharing only the
temperature agrees on that membership. -/
theorem C1_alert_membership_witness :
    (highTempAlert ∈ alerts ⟨55, 50, 200, 1, 10⟩ ↔ (55 : ℚ) > 50) ∧
    (highTempAlert ∈ alerts ⟨55, 50, 200, 1, 10⟩ ↔
      highTempAlert ∈ alerts ⟨55, 80, 700, 4, 70⟩) :=
  ⟨(C1_alert_membership ⟨55, 50, 200, 1, 10⟩).1,
   (C1_alert_membership ⟨55, 50, 200, 1, 10⟩).2.2.2.1 ⟨55, 80, 700, 4, 70⟩ rfl⟩

/-- C2 counterexample: at the reading (55, 50, 700, 4, 70) all four
thresholds are exceeded, yet the alert list is temperature, gas, smoke,
vibration — it does NOT contain the four alerts in the claimed order
temperature, gas, vibration, smoke. -/
theorem C2_order_counterexample :
    alerts ⟨55, 50, 700, 4, 70⟩ =
      [highTempAlert, gasLeakAlert, smokeAlert, vibrationAlert] ∧
    ¬ ([highTempAlert, gasLeakAlert, vibrationAlert, smokeAlert].Sublist
        (alerts ⟨55, 50, 700, 4, 70⟩)) := by
  constructor
  · rw [alerts_eq]; norm_num
  · rw [alerts_eq]; norm_num
    decide

/-- C2 (amended): for every SensorReading, the alerts appear in the source
check order temperature, gas, smoke, vibration — the alert list is a
subsequence of the full ordered list of the four alerts — and a reading
exceeding all four thresholds yields exactly those four alerts in that
order. -/
theorem C2_alert_order (d : SensorReading) :
    (alerts d).Sublist
      [highTempAlert, gasLeakAlert, smokeAlert, vibrationAlert] ∧
    (d.temperature > 50 → d.gasLevel > 600 → d.smokeLevel > 60 →
      d.vibration > 3 →
      alerts d = [highTempAlert, gasLeakAlert, smokeAlert, vibrationAlert]) := by
  rw [alerts_eq]
  constructor
  · split_ifs <;> decide
  · intro h1 h2 h3 h4
    rw [if_pos h1, if_pos h2, if_pos h3, if_pos h4]
    rfl

/-- Witness for C2 at the all-thresholds-exceeded reading (55, 50, 700, 4, 70). -/
theorem C2_alert_order_witness :
    (alerts ⟨55, 50, 700, 4, 70⟩).Sublist
      [highTempAlert, gasLeakAlert, smokeAlert, vibrationAlert] ∧
    alerts ⟨55, 50, 700, 4, 70⟩ =
      [highTempAlert, gasLeakAlert, smokeAlert, vibrationAlert] :=
  ⟨(C2_alert_order ⟨55, 50, 700, 4, 70⟩).1,
   (C2_alert_order ⟨55, 50, 700, 4, 70⟩).2 (by norm_num) (by norm_num)
     (by norm_num) (by norm_num)⟩

/-- C3: the smoke alert is in the list iff the smoke level exceeds the
configured threshold 60, independently of the other keys. -/
theorem C3_smoke_membership (d : SensorReading) :
    (smokeAlert ∈ alerts d ↔ d.smokeLevel > 60) ∧
    (∀ d2 : SensorReading, d.smokeLevel = d2.smokeLevel →
      (smokeAlert ∈ alerts d ↔ smokeAlert ∈ alerts d2)) := by
  refine ⟨smokeAlert_mem_iff d, fun d2 h => ?_⟩
  rw [smokeAlert_mem_iff, smokeAlert_mem_iff, h]

/-- Witness for C3 at smoke level 70 and a second reading sharing only the
smoke level. -/
theorem C3_smoke_membership_witness :
    (smokeAlert ∈ alerts ⟨20, 30, 100, 0, 70⟩ ↔ (70 : ℚ) > 60) ∧
    (smokeAlert ∈ alerts ⟨20, 30, 100, 0, 70⟩ ↔
      smokeAlert ∈ alerts ⟨55, 80, 700, 4, 70⟩) :=
  ⟨(C3_smoke_membership ⟨20, 30, 100, 0, 70⟩).1,
   (C3_smoke_membership ⟨20, 30, 100, 0, 70⟩).2 ⟨55, 80, 700, 4, 70⟩ rfl⟩

/-- C4: the reading with temperature 55, gas 200, vibration 1, smoke 10 and
any in-range humidity yields exactly the one-element alert list containing
the high-temperature alert. -/
theorem C4_high_temp_only (h : ℚ) (_hl : 30 ≤ h) (_hu : h ≤ 90) :
    alerts ⟨55, h, 200, 1, 10⟩ = [highTempAlert] := by
  rw [alerts_eq]; norm_num

/-- Witness for C4 at humidity 50. -/
theorem C4_high_temp_only_witness :
    alerts ⟨55, 50, 200, 1, 10⟩ = [highTempAlert] :=
  C4_high_temp_only 50 (by norm_num) (by norm_num)

/-- C5: the reading with every value at its range minimum (20, 30, 100, 0, 0)
yields the empty alert list. -/
theorem C5_all_min_empty : alerts ⟨20, 30, 100, 0, 0⟩ = [] := by
  rw [alerts_eq]; norm_num

/-- The raw values drawn by the five `random.uniform` calls of
`generate_sensor_data` (src/iot_hub.py lines 116–123), one per key, before
rounding. -/
structure RawSample where
  temperature : ℚ
  humidity : ℚ
  gasLevel : ℚ
  vibration : ℚ
  smokeLevel : ℚ
deriving DecidableEq, Repr

/-- Round to the nearest integer, ties to the even neighbour — the rounding
used by the Python builtin `round`. -/
def roundHalfEven (q : ℚ) : ℤ :=
  if q - ⌊q⌋ = 1 / 2 then (if ⌊q⌋ % 2 = 0 then ⌊q⌋ else ⌊q⌋ + 1)
  else ⌊q + 1 / 2⌋

/-- Python `round(q, 2)`: round to two decimal places. -/
def pyRound2 (q : ℚ) : ℚ := (roundHalfEven (q * 100) : ℚ) / 100

/-- `generate_sensor_data` (src/iot_hub.py lines 116–123) as a function of
the raw uniform samples: each of the five values is its sample rounded to
two decimal places. -/
def generate_sensor_data (r : RawSample) : SensorReading :=
  { temperature := pyRound2 r.temperature
    humidity := pyRound2 r.humidity
    gasLevel := pyRound2 r.gasLevel
    vibration := pyRound2 r.vibration
    smokeLevel := pyRound2 r.smokeLevel }

theorem le_roundHalfEven {n : ℤ} {q : ℚ} (h : (n : ℚ) ≤ q) :
    n ≤ roundHalfEven q := by
  unfold roundHalfEven
  have hfl : n ≤ ⌊q⌋ := Int.le_floor.mpr h
  split_ifs with h1 h2
  · exact hfl
  · omega
  · have : (n : ℚ) ≤ q + 1 / 2 := by linarith
    exact Int.le_floor.mpr this

theorem roundHalfEven_le {n : ℤ} {q : ℚ} (h : q ≤ (n : ℚ)) :
    roundHalfEven q ≤ n := by
  unfold roundHalfEven
  split_ifs with h1 h2
  · exact Int.cast_le.mp ((Int.floor_le q).trans h)
  · have hq : q = (⌊q⌋ : ℚ) + 1 / 2 := by linarith
    have hcast : (⌊q⌋ : ℚ) < (n : ℚ) := by rw [hq] at h; linarith
    have := Int.cast_lt.mp hcast
    omega
  · have hlt : q + 1 / 2 < ((n + 1 : ℤ) : ℚ) := by push_cast; linarith
    have := Int.floor_lt.mpr hlt
    omega

theorem pyRound2_mem_Icc (a b : ℤ) (q : ℚ)
    (hl : (a : ℚ) ≤ q) (hu : q ≤ (b : ℚ)) :
    (a : ℚ) ≤ pyRound2 q ∧ pyRound2 q ≤ (b : ℚ) := by
  unfold pyRound2
  have h1 : ((a * 100 : ℤ) : ℚ) ≤ q * 100 := by push_cast; linarith
  have h2 : q * 100 ≤ ((b * 100 : ℤ) : ℚ) := by push_cast; linarith
  have hlo : (a : ℚ) * 100 ≤ (roundHalfEven (q * 100) : ℚ) := by
    have hc : ((a * 100 : ℤ) : ℚ) ≤ ((roundHalfEven (q * 100) : ℤ) : ℚ) :=
      Int.cast_le.mpr (le_roundHalfEven h1)
    push_cast at hc
    linarith
  have hhi : (roundHalfEven (q * 100) : ℚ) ≤ (b : ℚ) * 100 := by
    have hc : ((roundHalfEven (q * 100) : ℤ) : ℚ) ≤ ((b * 100 : ℤ) : ℚ) :=
      Int.cast_le.mpr (roundHalfEven_le h2)
    push_cast at hc
    linarith
  constructor <;> linarith

/-- C6: every reading produced by `generate_sensor_data` keeps each of its
five values inside that key's declared range: temperature in [20,75],
humidity in [30,90], gas level in [100,900], vibration in [0,5], smoke in
[0,100], given that each raw uniform sample lies in its range. -/
theorem C6_generated_in_range (r : RawSample)
    (ht1 : 20 ≤ r.temperature) (ht2 : r.temperature ≤ 75)
    (hh1 : 30 ≤ r.humidity) (hh2 : r.humidity ≤ 90)
    (hg1 : 100 ≤ r.gasLevel) (hg2 : r.gasLevel ≤ 900)
    (hv1 : 0 ≤ r.vibration) (hv2 : r.vibration ≤ 5)
    (hs1 : 0 ≤ r.smokeLevel) (hs2 : r.smokeLevel ≤ 100) :
    (20 ≤ (generate_sensor_data r).temperature ∧
      (generate_sensor_data r).temperature ≤ 75) ∧
    (30 ≤ (generate_sensor_data r).humidity ∧
      (generate_sensor_data r).humidity ≤ 90) ∧
    (100 ≤ (generate_sensor_data r).gasLevel ∧
      (generate_sensor_data r).gasLevel ≤ 900) ∧
    (0 ≤ (generate_sensor_data r).vibration ∧
      (generate_sensor_data r).vibration ≤ 5) ∧
    (0 ≤ (generate_sensor_data r).smokeLevel ∧
      (generate_sensor_data r).smokeLevel ≤ 100) := by
  have t := pyRound2_mem_Icc 20 75 r.temperature
    (by exact_mod_cast ht1) (by exact_mod_cast ht2)
  have h := pyRound2_mem_Icc 30 90 r.humidity
    (by exact_mod_cast hh1) (by exact_mod_cast hh2)
  have g := pyRound2_mem_Icc 100 900 r.gasLevel
    (by exact_mod_cast hg1) (by exact_mod_cast hg2)
  have v := pyRound2_mem_Icc 0 5 r.vibration
    (by exact_mod_cast hv1) (by exact_mod_cast hv2)
  have s := pyRound2_mem_Icc 0 100 r.smokeLevel
    (by exact_mod_cast hs1) (by exact_mod_cast hs2)
  unfold generate_sensor_data
  exact ⟨⟨by exact_mod_cast t.1, by exact_mod_cast t.2⟩,
    ⟨by exact_mod_cast h.1, by exact_mod_cast h.2⟩,
    ⟨by exact_mod_cast g.1, by exact_mod_cast g.2⟩,
    ⟨by exact_mod_cast v.1, by exact_mod_cast v.2⟩,
    ⟨by exact_mod_cast s.1, by exact_mod_cast s.2⟩⟩

/-- Witness for C6 at the concrete raw sample (33, 50, 500, 2, 60). -/
theorem C6_generated_in_range_witness :
    (20 ≤ (generate_sensor_data ⟨33, 50, 500, 2, 60⟩).temperature ∧
      (generate_sensor_data ⟨33, 50, 500, 2, 60⟩).temperature ≤ 75) ∧
    (30 ≤ (generate_sensor_data ⟨33, 50, 500, 2, 60⟩).humidity ∧
      (generate_sensor_data ⟨33, 50, 500, 2, 60⟩).humidity ≤ 90) ∧
    (100 ≤ (generate_sensor_data ⟨33, 50, 500, 2, 60⟩).gasLevel ∧
      (generate_sensor_data ⟨33, 50, 500, 2, 60⟩).gasLevel ≤ 900) ∧
    (0 ≤ (generate_sensor_data ⟨33, 50, 500, 2, 60⟩).vibration ∧
      (generate_sensor_data ⟨33, 50, 500, 2, 60⟩).vibration ≤ 5) ∧
    (0 ≤ (generate_sensor_data ⟨33, 50, 500, 2, 60⟩).smokeLevel ∧
      (generate_sensor_data ⟨33, 50, 500, 2, 60⟩).smokeLevel ≤ 100) :=
  C6_generated_in_range ⟨33, 50, 500, 2, 60⟩
    (by norm_num) (by norm_num) (by norm_num) (by norm_num) (by norm_num)
    (by norm_num) (by norm_num) (by norm_num) (by norm_num) (by norm_num)

/-- One dashboard render per raw sample: `sensor_dashboard` generates a
reading and computes its alerts; a run is the list of (reading, alerts)
pairs over a sequence of renders.  The alert computation reads nothing but
the reading. -/
def dashboardRun (samples : List RawSample) :
    List (SensorReading × List String) :=
  samples.map (fun r => (generate_sensor_data r, alerts (generate_sensor_data r)))

/-- C7: the alert evaluation is a pure, deterministic function of the
reading: whenever two renders — in any two runs, at any two positions —
display the same reading, they display the same alert list. -/
theorem C7_deterministic (s1 s2 : List RawSample) (i j : ℕ)
    (d : SensorReading) (a1 a2 : List String)
    (h1 : (dashboardRun s1)[i]? = some (d, a1))
    (h2 : (dashboardRun s2)[j]? = some (d, a2)) :
    a1 = a2 := by
  unfold dashboardRun at h1 h2
  rw [List.getElem?_map] at h1 h2
  obtain ⟨r1, _, hf1⟩ := Option.map_eq_some'.mp h1
  obtain ⟨r2, _, hf2⟩ := Option.map_eq_some'.mp h2
  obtain ⟨hd1, ha1⟩ := Prod.mk.injEq _ _ _ _ ▸ hf1
  obtain ⟨hd2, ha2⟩ := Prod.mk.injEq _ _ _ _ ▸ hf2
  rw [← ha1, ← ha2, hd1, hd2]

/-- Witness for C7: the same raw sample rendered first in one run and second
in another yields the same alert list. -/
theorem C7_deterministic_witness :
    (dashboardRun [⟨33, 50, 500, 2, 60⟩])[0]? =
      some (generate_sensor_data ⟨33, 50, 500, 2, 60⟩,
            alerts (generate_sensor_data ⟨33, 50, 500, 2, 60⟩)) ∧
    (dashboardRun [⟨40, 40, 400, 1, 50⟩, ⟨33, 50, 500, 2, 60⟩])[1]? =
      some (generate_sensor_data ⟨33, 50, 500, 2, 60⟩,
            alerts (generate_sensor_data ⟨33, 50, 500, 2, 60⟩)) ∧
    alerts (generate_sensor_data ⟨33, 50, 500, 2, 60⟩) =
      alerts (generate_sensor_data ⟨33, 50, 500, 2, 60⟩) :=
  ⟨rfl, rfl,
   C7_deterministic [⟨33, 50, 500, 2, 60⟩]
     [⟨40, 40, 400, 1, 50⟩, ⟨33, 50, 500, 2, 60⟩] 0 1
     (generate_sensor_data ⟨33, 50, 500, 2, 60⟩) _ _ rfl rfl⟩

/-- Looking a key up in the sensor-data dict, the dict represented as a
key/value list: `data[k]` yields the value when the key is present and fails
otherwise. -/
def lookupKey (data : List (String × ℚ)) (k : String) : Option ℚ :=
  (data.find? (fun p => p.1 == k)).map Prod.snd

/-- The alert chain of `sensor_dashboard` over the dict itself, with each
dictionary access explicit: the four accesses happen in source order —
temperature, gas, smoke, vibration — and the computation fails only if an
accessed key is missing. -/
def alertsDict (data : List (String × ℚ)) : Option (List String) := do
  let a0 : List String := []
  let t ← lookupKey data "Temperature (°C)"
  let a1 := if t > 50 then a0 ++ [highTempAlert] else a0
  let g ← lookupKey data "Gas Level (ppm)"
  let a2 := if g > 600 then a1 ++ [gasLeakAlert] else a1
  let s ← lookupKey data "Smoke Level (%)"
  let a3 := if s > 60 then a2 ++ [smokeAlert] else a2
  let v ← lookupKey data "Vibration (m/s²)"
  let a4 := if v > 3 then a3 ++ [vibrationAlert] else a3
  pure a4

/-- C9: the alert evaluation is total over well-formed input — whenever the
dict maps each of the five fixed keys to a numeric value, the evaluation
returns an alert list and no failure branch is reached. -/
theorem C9_total_on_wellformed (data : List (String × ℚ))
    (h1 : (lookupKey data "Temperature (°C)").isSome = true)
    (_h2 : (lookupKey data "Humidity (%)").isSome = true)
    (h3 : (lookupKey data "Gas Level (ppm)").isSome = true)
    (h4 : (lookupKey data "Vibration (m/s²)").isSome = true)
    (h5 : (lookupKey data "Smoke Level (%)").isSome = true) :
    ∃ a, alertsDict data = some a := by
  obtain ⟨t, ht⟩ := Option.isSome_iff_exists.mp h1
  obtain ⟨g, hg⟩ := Option.isSome_iff_exists.mp h3
  obtain ⟨v, hv⟩ := Option.isSome_iff_exists.mp h4
  obtain ⟨s, hs⟩ := Option.isSome_iff_exists.mp h5
  apply Option.isSome_iff_exists.mp
  unfold alertsDict
  rw [ht, hg, hs, hv]
  rfl

/-- The well-formed sensor-data dict with the five fixed keys, at the values
of the C4 scenario. -/
def sampleDict : List (String × ℚ) :=
  [("Temperature (°C)", 55), ("Humidity (%)", 50), ("Gas Level (ppm)", 200),
   ("Vibration (m/s²)", 1), ("Smoke Level (%)", 10)]

/-- Witness for C9 at the concrete five-key dict `sampleDict`. -/
theorem C9_total_on_wellformed_witness :
    ∃ a, alertsDict sampleDict = some a :=
  C9_total_on_wellformed sampleDict rfl rfl rfl rfl rfl

/-- An RGB colour. -/
abbrev Color := ℕ × ℕ × ℕ

/-- An image as a function from pixel coordinates to colours. -/
def Img : Type := ℕ → ℕ → Color

/-- A bounding box reported by the detection model. -/
structure DetBox where
  x0 : ℕ
  y0 : ℕ
  x1 : ℕ
  y1 : ℕ
deriving DecidableEq, Repr

/-- Modelled from the spec: drawing the outline of one reported box onto an
image — border pixels of the box take the outline colour, every other pixel
is unchanged. -/
def drawBoxOutline (img : Img) (b : DetBox) (c : Color) : Img := fun x y =>
  if (b.x0 ≤ x ∧ x ≤ b.x1 ∧ b.y0 ≤ y ∧ y ≤ b.y1) ∧
      (x = b.x0 ∨ x = b.x1 ∨ y = b.y0 ∨ y = b.y1) then c
  else img x y

/-- Modelled from the spec: drawing one text label near its box — pixels on
a glyph (per an external font raster) take the text colour, the rest are
unchanged. -/
def drawLabelText (raster : String → ℕ → ℕ → Bool) (img : Img) (b : DetBox)
    (lab : String) (c : Color) : Img := fun x y =>
  if raster lab (x - b.x0) (y - b.y0) then c else img x y

/-- Modelled from the spec: the Detection Overlay of spec section 4.3, which
is not implemented in src/iot_hub.py (the source file has only the constant
fake image `draw_fake_ai_detection`): given an image and the detection
model's reported (box, label) list, return a copy of the image with one
rectangle and one text label drawn per detected object, with no
post-processing, thresholding, or NMS. -/
def detectionOverlay (raster : String → ℕ → ℕ → Bool) (img : Img)
    (dets : List (DetBox × String)) : Img :=
  dets.foldl
    (fun im bd =>
      drawLabelText raster (drawBoxOutline im bd.1 (255, 0, 0)) bd.1 bd.2
        (255, 0, 0))
    img

/-- C8: when the detection model returns zero boxes, the Detection Overlay
output is pixel-for-pixel identical to the input image. -/
theorem C8_overlay_empty_identical (raster : String → ℕ → ℕ → Bool)
    (img : Img) (x y : ℕ) :
    detectionOverlay raster img [] x y = img x y := rfl

/-- A drawing operation recorded on a Pillow image by `ImageDraw`. -/
inductive DrawOp where
  | rectangleOutline (x0 y0 x1 y1 : ℤ) (outline : Color) (w : ℕ)
  | textLabel (x y : ℤ) (s : String) (fill : Color)
deriving DecidableEq, Repr

/-- A Pillow image: mode, size, background colour, and the draw calls made
on it, in order. -/
structure PILImage where
  mode : String
  width : ℕ
  height : ℕ
  background : Color
  ops : List DrawOp
deriving DecidableEq, Repr

/-- The colour red. -/
def red : Color := (255, 0, 0)

/-- The colour white. -/
def white : Color := (255, 255, 255)

/-- `draw_fake_ai_detection` (src/iot_hub.py lines 162–168): build a
640-by-360 white RGB image, draw one red rectangle outline of width 3 with
corners (50, 70) and (250, 270), and the red text "Intruder" at (60, 60).
The function takes no input. -/
def draw_fake_ai_detection (_u : Unit) : PILImage :=
  { mode := "RGB", width := 640, height := 360, background := white,
    ops := [DrawOp.rectangleOutline 50 70 250 270 red 3,
            DrawOp.textLabel 60 60 "Intruder" red] }

/-- C10: the fake AI-detection drawing takes no input and is constant —
every invocation returns the same 640-by-360 white RGB image carrying
exactly one red rectangle with corners (50, 70) and (250, 270) and the text
"Intruder" at (60, 60). -/
theorem C10_fake_detection_constant :
    (∀ u v : Unit, draw_fake_ai_detection u = draw_fake_ai_detection v) ∧
    (draw_fake_ai_detection ()).mode = "RGB" ∧
    (draw_fake_ai_detection ()).width = 640 ∧
    (draw_fake_ai_detection ()).height = 360 ∧
    (draw_fake_ai_detection ()).background = white ∧
    (draw_fake_ai_detection ()).ops =
      [DrawOp.rectangleOutline 50 70 250 270 red 3,
       DrawOp.textLabel 60 60 "Intruder" red] :=
  ⟨fun _ _ => rfl, rfl, rfl, rfl, rfl, rfl⟩

end IotHub
